import Mathlib

/-!
Verification development for the metrics-demultiplexer core and its
collaborators, shallowly embedded from the Go sources:

* `pkg/process/checks/pod_null.go` — the stub `PodCheck`, the
  `createIterableMetrics` sink constructor and the
  `getDogStatsDWorkerAndPipelineCount` topology sizer;
* `pkg/util/containers/providers/windows/provider.go` — the Windows
  container-metrics provider (`Prefetch`, per-container accessors,
  `GetAgentCID`, `GetPIDs`, `ContainerIDForPID`).

Go's multiple return value `(T, error)` is embedded as `T × Option String`
(`none` = nil error); Go maps are embedded as association lists; Go `int`
is embedded as `Int` with Go's truncated division (`Int.tdiv`), and Go
`uint64` as `Nat` with explicit reduction modulo `2 ^ 64` where overflow
matters.
-/

namespace Checks

/-- Placeholder for `config.AgentConfig`: `PodCheck.Run` never inspects it. -/
structure AgentConfig where
  placeholderField : Unit := ()

/-- Placeholder for `model.MessageBody`: `PodCheck.Run` never builds one. -/
structure MessageBody where
  placeholderField : Unit := ()

/-- Placeholder for `model.SystemInfo` stored by `PodCheck.Init`. -/
structure SystemInfo where
  placeholderField : Unit := ()

/-- `PodCheck` from `pod_null.go`: a check that would return container
metadata and stats, intentionally unimplemented in this build. -/
structure PodCheck where
  sysInfo : Option SystemInfo := none

/-- `PodCheck.Run` from `pod_null.go`:
`return nil, fmt.Errorf("Not implemented")`. The result pair embeds Go's
`([]model.MessageBody, error)`; the function is total, so it never panics. -/
def PodCheck.Run (_c : PodCheck) (_cfg : AgentConfig) (_groupID : Int) :
    Option (List MessageBody) × Option String :=
  (none, some "Not implemented")

/-- `PodCheck.Name` from `pod_null.go`. -/
def PodCheck.Name (_c : PodCheck) : String := "pod"

end Checks

namespace Aggregator

/-- The two knobs of `config.Datadog` read by
`getDogStatsDWorkerAndPipelineCount`. -/
structure DatadogConfig where
  dogstatsdPipelineAutoadjust : Bool
  dogstatsdPipelineCount : Int

/-- `getDogStatsDWorkerAndPipelineCount(vCPUs int) (int, int)` from
`pod_null.go`, with the two `config.Datadog` reads made explicit
parameters. Returns `(dsdWorkerCount, pipelineCount)`. Go `/` on `int`
truncates toward zero, hence `Int.tdiv`. The warning log emitted in
auto-adjust mode when `dogstatsd_pipeline_count > 1` has no effect on the
returned values. -/
def getDogStatsDWorkerAndPipelineCount (vCPUs : Int) (cfg : DatadogConfig) :
    Int × Int :=
  let autoAdjust := cfg.dogstatsdPipelineAutoadjust
  if autoAdjust = false then
    let pipelineCount0 := cfg.dogstatsdPipelineCount
    let pipelineCount := if pipelineCount0 ≤ 0 then 1 else pipelineCount0
    let dsdWorkerCount0 := vCPUs - 1 - pipelineCount
    let dsdWorkerCount := if dsdWorkerCount0 < 2 then 2 else dsdWorkerCount0
    (dsdWorkerCount, pipelineCount)
  else
    let dsdWorkerCount0 := Int.tdiv vCPUs 2
    let dsdWorkerCount := if dsdWorkerCount0 < 2 then 2 else dsdWorkerCount0
    let pipelineCount0 := dsdWorkerCount - 1
    let pipelineCount := if pipelineCount0 ≤ 0 then 1 else pipelineCount0
    (dsdWorkerCount, pipelineCount)

/-- Capability surface of `serializer.MetricSerializer` consulted by
`createIterableMetrics`. -/
structure MetricSerializer where
  areSeriesEnabled : Bool
  areSketchesEnabled : Bool

/-- `FlushAndSerializeInParallel` configuration passed to the sink
constructors. -/
structure FlushAndSerializeInParallel where
  bufferSize : Nat
  channelSize : Nat

/-- An `IterableSeries` sink as built by `metrics.NewIterableSeries`:
the per-serie callback only logs and updates telemetry, so the sink is
characterised by its buffer and channel sizes. -/
structure IterableSeries where
  bufferSize : Nat
  channelSize : Nat

/-- An `IterableSketches` sink as built by `metrics.NewIterableSketches`. -/
structure IterableSketches where
  bufferSize : Nat
  channelSize : Nat

/-- `createIterableMetrics` from `pod_null.go`: builds a series sink only
when `serializer.AreSeriesEnabled()` and a sketches sink only when
`serializer.AreSketchesEnabled()`. `logPayloads` and `isServerless` only
influence the logging callbacks, not whether a sink is created. -/
def createIterableMetrics (f : FlushAndSerializeInParallel)
    (s : MetricSerializer) (_logPayloads : Bool) (_isServerless : Bool) :
    Option IterableSeries × Option IterableSketches :=
  let series : Option IterableSeries :=
    if s.areSeriesEnabled then some ⟨f.bufferSize, f.channelSize⟩ else none
  let sketches : Option IterableSketches :=
    if s.areSketchesEnabled then some ⟨f.bufferSize, f.channelSize⟩ else none
  (series, sketches)

end Aggregator

namespace WindowsProvider

/-- The fields of `types.NetworkStats` read by the provider. All counters
are Go `uint64`, embedded as `Nat`. -/
structure NetworkStats where
  rxBytes : Nat
  txBytes : Nat
  rxPackets : Nat
  txPackets : Nat

/-- `metrics.ContainerCPUStats` as filled by `fillContainerMetrics`. The Go
struct stores `float64(user)` etc.; the embedding keeps the exact `uint64`
jiffy counts the conversions are applied to, since the claims concern the
integer arithmetic producing them. -/
structure ContainerCPUStats where
  user : Nat
  system : Nat
  usageTotal : Nat

/-- `metrics.ContainerMemStats` fields filled by `fillContainerMetrics`. -/
structure ContainerMemStats where
  rss : Nat
  privateWorkingSet : Nat
  commitBytes : Nat
  commitPeakBytes : Nat

/-- `metrics.ContainerIOStats` fields filled by `fillContainerMetrics`. -/
structure ContainerIOStats where
  readBytes : Nat
  writeBytes : Nat

/-- `metrics.ContainerMetrics` bundle (CPU, memory, IO sub-structs, all set
together by `fillContainerMetrics`). -/
structure ContainerMetrics where
  cpu : ContainerCPUStats
  memory : ContainerMemStats
  ioStats : ContainerIOStats

/-- `metrics.ContainerLimits` as filled by `fillContainerDetails`. Go
computes `CPULimit` in `float64`; the embedding uses exact rationals for
that arithmetic (no claim depends on rounding). `MemLimit` is
`uint64(cjson.HostConfig.Memory)`, a two's-complement reinterpretation of
an `int64`. -/
structure ContainerLimits where
  cpuLimit : ℚ
  memLimit : Nat

/-- `metrics.InterfaceNetStats` entries built by `GetNetworkMetrics`. -/
structure InterfaceNetStats where
  networkName : String
  bytesRcvd : Nat
  bytesSent : Nat
  packetsRcvd : Nat
  packetsSent : Nat

/-- `containerBundle` from `provider.go`; the Go zero value has nil
pointers, a nil map and `startTime 0`. -/
structure ContainerBundle where
  metrics : Option ContainerMetrics := none
  networkMetrics : List (String × NetworkStats) := []
  limits : Option ContainerLimits := none
  startTime : Int := 0

/-- The `provider` struct: a prefetched container map plus the detected
agent container id (`nil` pointer embedded as `none`). The two mutexes
only guard concurrent access and carry no data. -/
structure Provider where
  containers : List (String × ContainerBundle) := []
  agentCID : Option String := none

/-- The fields of `cjson.State` read during prefetch: the container PID
and the `StartedAt` timestamp. `startedAtUnix` is the result of
`time.Parse(time.RFC3339, StartedAt)` followed by `.Unix()`; `none`
embeds a parse error. -/
structure ContainerState where
  pid : Int
  startedAtUnix : Option Int

/-- The fields of `cjson.HostConfig` read by `fillContainerDetails`. All
are Go `int64`. -/
structure HostConfig where
  nanoCPUs : Int
  cpuPercent : Int
  cpuCount : Int
  memory : Int

/-- The fields of `types.ContainerJSON` read during prefetch. -/
structure ContainerJSON where
  id : String
  state : ContainerState
  hostConfig : HostConfig

/-- The fields of `stats.CPUStats.CPUUsage` read by
`fillContainerMetrics` (Go `uint64`). -/
structure CPUUsage where
  totalUsage : Nat
  usageInKernelmode : Nat

/-- The fields of `stats.MemoryStats` read by `fillContainerMetrics`. -/
structure MemoryStats where
  privateWorkingSet : Nat
  commit : Nat
  commitPeak : Nat

/-- The fields of `stats.StorageStats` read by `fillContainerMetrics`. -/
structure StorageStats where
  readSizeBytes : Nat
  writeSizeBytes : Nat

/-- The fields of `types.StatsJSON` read during prefetch; `networks` is
the `stats.Networks` map as an association list. -/
structure StatsJSON where
  cpuUsage : CPUUsage
  memoryStats : MemoryStats
  storageStats : StorageStats
  networks : List (String × NetworkStats)

/-- `fillContainerDetails` from `provider.go`: records the parsed start
time (left untouched on parse error) and the CPU/memory limits.
`numCPU` stands for the external `sysinfo.NumCPU()` call. -/
def fillContainerDetails (numCPU : Nat) (cjson : ContainerJSON)
    (b : ContainerBundle) : ContainerBundle :=
  let b1 := match cjson.state.startedAtUnix with
    | some t => { b with startTime := t }
    | none => b
  let cpuLimit : ℚ :=
    if 0 < cjson.hostConfig.nanoCPUs then
      (cjson.hostConfig.nanoCPUs : ℚ) / 1000000000 * 100
    else if 0 < cjson.hostConfig.cpuPercent then
      (cjson.hostConfig.cpuPercent : ℚ) * (numCPU : ℚ)
    else if 0 < cjson.hostConfig.cpuCount then
      (cjson.hostConfig.cpuCount : ℚ) * 100
    else 0
  { b1 with limits := some {
      cpuLimit := cpuLimit
      memLimit := (cjson.hostConfig.memory % (2 ^ 64 : Int)).toNat } }

/-- `fillContainerMetrics` from `provider.go`. `1e5` is an untyped Go
constant, so `/ 1e5` on the `uint64` counters is integer division by
`100000`. `user := total - kernel` is `uint64` subtraction, which wraps
modulo `2 ^ 64`; the subsequent `if user < 0 { user = 0 }` guard is kept
literally (on `Nat`, as on `uint64`, the condition is vacuous). -/
def fillContainerMetrics (stats : StatsJSON) (b : ContainerBundle) :
    ContainerBundle :=
  let kernel := stats.cpuUsage.usageInKernelmode / 100000
  let total := stats.cpuUsage.totalUsage / 100000
  let user0 := (total + 2 ^ 64 - kernel) % 2 ^ 64
  let user := if user0 < 0 then 0 else user0
  { b with metrics := some {
      cpu := { user := user, system := kernel, usageTotal := total }
      memory := {
        rss := stats.memoryStats.privateWorkingSet
        privateWorkingSet := stats.memoryStats.privateWorkingSet
        commitBytes := stats.memoryStats.commit
        commitPeakBytes := stats.memoryStats.commitPeak }
      ioStats := {
        readBytes := stats.storageStats.readSizeBytes
        writeBytes := stats.storageStats.writeSizeBytes } } }

/-- `fillContainerNetworkMetrics` from `provider.go`. -/
def fillContainerNetworkMetrics (stats : StatsJSON) (b : ContainerBundle) :
    ContainerBundle :=
  { b with networkMetrics := stats.networks }

/-- The external collaborators consulted by `Prefetch`:
`docker.GetDockerUtil` (its error), `RawContainerList`, `Inspect`,
`GetContainerStats` (Go can return a nil stats pointer with a nil error,
hence `Option StatsJSON` in the success case), `sysinfo.NumCPU`, and the
agent/parent PIDs from `os.Getpid`/`os.Getppid`. -/
structure DockerEnv where
  getDockerUtilError : Option String
  rawContainerList : Except String (List String)
  inspect : String → Except String ContainerJSON
  getContainerStats : String → Except String (Option StatsJSON)
  numCPU : Nat
  agentPID : Int
  parentPID : Int

/-- One iteration of the `Prefetch` loop body for container id `cid`:
builds the bundle recorded for `cid` and reports whether its inspected
PID matched the agent (which makes the loop set `mp.agentCID`). An
inspect failure or a stats failure is logged and skipped: the bundle is
still recorded, with the corresponding parts left at their zero values. -/
def prefetchItem (env : DockerEnv) (cid : String) : ContainerBundle × Bool :=
  let step1 : ContainerBundle × Bool := match env.inspect cid with
    | Except.ok cjson =>
        (fillContainerDetails env.numCPU cjson {},
         decide (cjson.state.pid = env.agentPID ∨
                 cjson.state.pid = env.parentPID))
    | Except.error _ => ({}, false)
  let b2 : ContainerBundle := match env.getContainerStats cid with
    | Except.ok (some stats) =>
        fillContainerNetworkMetrics stats (fillContainerMetrics stats step1.1)
    | _ => step1.1
  (b2, step1.2)

/-- `Prefetch` from `provider.go`, sequentialised: the Go code splits the
container list into batches processed by goroutines that each insert into
a shared map under a mutex; per-container processing is independent, so
the published map is the same as processing the list in order. Returns
the updated provider and the Go error. Only a `GetDockerUtil` or
`RawContainerList` failure aborts (leaving the provider unchanged);
per-item inspect/stats failures never do. -/
def Prefetch (env : DockerEnv) (mp : Provider) : Provider × Option String :=
  match env.getDockerUtilError with
  | some e => (mp, some e)
  | none =>
    match env.rawContainerList with
    | Except.error e => (mp, some e)
    | Except.ok rawContainers =>
      let processed := rawContainers.map (fun cid => (cid, prefetchItem env cid))
      let newContainers := processed.map (fun p => (p.1, p.2.1))
      let newAgentCID := processed.foldl
        (fun acc p => if p.2.2 then some p.1 else acc) mp.agentCID
      ({ containers := newContainers, agentCID := newAgentCID }, none)

/-- `ContainerExists` from `provider.go`. -/
def ContainerExists (mp : Provider) (containerID : String) : Bool :=
  (mp.containers.lookup containerID).isSome

/-- `GetContainerStartTime` from `provider.go`: `(0, error)` on a miss,
the stored start time otherwise. -/
def GetContainerStartTime (mp : Provider) (containerID : String) :
    Int × Option String :=
  match mp.containers.lookup containerID with
  | none => (0, some "container not found")
  | some b => (b.startTime, none)

/-- `GetContainerMetrics` from `provider.go`: `(nil, error)` on a miss,
the stored metrics pointer otherwise. -/
def GetContainerMetrics (mp : Provider) (containerID : String) :
    Option ContainerMetrics × Option String :=
  match mp.containers.lookup containerID with
  | none => (none, some "container not found")
  | some b => (b.metrics, none)

/-- `GetContainerLimits` from `provider.go`. -/
def GetContainerLimits (mp : Provider) (containerID : String) :
    Option ContainerLimits × Option String :=
  match mp.containers.lookup containerID with
  | none => (none, some "container not found")
  | some b => (b.limits, none)

/-- The loop of `GetNetworkMetrics` building one `InterfaceNetStats` per
stored interface, renaming the interface when the `networks` argument
maps it. -/
def makeNetStats (networks : List (String × String))
    (stored : List (String × NetworkStats)) : List InterfaceNetStats :=
  stored.map (fun p =>
    { networkName := match networks.lookup p.1 with
        | some nw => nw
        | none => p.1
      bytesRcvd := p.2.rxBytes
      bytesSent := p.2.txBytes
      packetsRcvd := p.2.rxPackets
      packetsSent := p.2.txPackets })

/-- `GetNetworkMetrics` from `provider.go`: `(nil, error)` on a miss, the
per-interface stats built from the stored bundle otherwise (`none` embeds
the nil slice returned on the error path). -/
def GetNetworkMetrics (mp : Provider) (containerID : String)
    (networks : List (String × String)) :
    Option (List InterfaceNetStats) × Option String :=
  match mp.containers.lookup containerID with
  | none => (none, some "container not found")
  | some b => (some (makeNetStats networks b.networkMetrics), none)

/-- `GetAgentCID` from `provider.go`: when the agent container id is
unknown it forces a `Prefetch` whose error is deliberately ignored; if
the id is still unknown it returns `("", nil)`. The result is
`(provider after the possible prefetch, returned string, error)`. -/
def GetAgentCID (env : DockerEnv) (mp : Provider) :
    Provider × String × Option String :=
  let mp1 := if mp.agentCID.isNone then (Prefetch env mp).1 else mp
  match mp1.agentCID with
  | none => (mp1, "", none)
  | some cid => (mp1, cid, none)

/-- `GetPIDs` from `provider.go`: `return nil, nil` (unimplemented on
Windows, signalled with neither data nor an error). -/
def GetPIDs (_mp : Provider) (_containerID : String) :
    Option (List Int) × Option String :=
  (none, none)

/-- `ContainerIDForPID` from `provider.go`: always an explicit error. -/
def ContainerIDForPID (_mp : Provider) (_pid : Int) :
    String × Option String :=
  ("", some "not supported on windows")

end WindowsProvider

namespace WindowsProvider

/-- A concrete prefetched bundle used to evaluate the accessors. -/
def sampleBundle : ContainerBundle :=
  { startTime := 42
    metrics := some {
      cpu := { user := 1, system := 2, usageTotal := 3 }
      memory := { rss := 4, privateWorkingSet := 4, commitBytes := 5,
                  commitPeakBytes := 6 }
      ioStats := { readBytes := 7, writeBytes := 8 } }
    networkMetrics := [("eth0",
      { rxBytes := 1, txBytes := 2, rxPackets := 3, txPackets := 4 })]
    limits := some { cpuLimit := 100, memLimit := 1024 } }

/-- A provider holding exactly one prefetched container, id `abc`. -/
def sampleProvider : Provider := { containers := [("abc", sampleBundle)] }

/-- A stats payload with all counters at zero. -/
def emptyStats : StatsJSON :=
  { cpuUsage := { totalUsage := 0, usageInKernelmode := 0 }
    memoryStats := { privateWorkingSet := 0, commit := 0, commitPeak := 0 }
    storageStats := { readSizeBytes := 0, writeSizeBytes := 0 }
    networks := [] }

/-- A concrete inspect result for a healthy container. -/
def sampleCJSON : ContainerJSON :=
  { id := "good"
    state := { pid := 99, startedAtUnix := some 1000 }
    hostConfig := { nanoCPUs := 0, cpuPercent := 0, cpuCount := 0,
                    memory := 0 } }

/-- A docker environment listing two containers, where both `Inspect`
and `GetContainerStats` fail for the second one. -/
def sampleEnv : DockerEnv :=
  { getDockerUtilError := none
    rawContainerList := Except.ok ["good", "bad"]
    inspect := fun cid =>
      if cid = "good" then Except.ok sampleCJSON
      else Except.error "inspect failure"
    getContainerStats := fun cid =>
      if cid = "good" then Except.ok (some emptyStats)
      else Except.error "stats failure"
    numCPU := 4
    agentPID := 10
    parentPID := 20 }

/-- A stats payload whose kernel-mode CPU counter exceeds its total CPU
counter after the `/ 1e5` scaling (`kernel = 1`, `total = 0`). -/
def wrapStats : StatsJSON :=
  { cpuUsage := { totalUsage := 0, usageInKernelmode := 100000 }
    memoryStats := { privateWorkingSet := 0, commit := 0, commitPeak := 0 }
    storageStats := { readSizeBytes := 0, writeSizeBytes := 0 }
    networks := [] }

end WindowsProvider

namespace Aggregator

/-- Claim C1: in manual mode (`autoAdjust = false`) the topology sizer
returns `pipelineCount = manualPipelineCount` when that count is positive
and `1` otherwise, and
`workerCount = max 2 (vCPUs - 1 - pipelineCount)`, for every vCPU
count. -/
theorem manual_mode_worker_and_pipeline_counts
    (vCPUs manualPipelineCount : Int) :
    getDogStatsDWorkerAndPipelineCount vCPUs ⟨false, manualPipelineCount⟩ =
      (max 2 (vCPUs - 1 -
        (if 0 < manualPipelineCount then manualPipelineCount else 1)),
       if 0 < manualPipelineCount then manualPipelineCount else 1) := by
  simp only [getDogStatsDWorkerAndPipelineCount]
  split_ifs <;> simp_all [Prod.ext_iff] <;> omega

/-- Claim C2: in auto-adjust mode the topology sizer returns
`workerCount = max 2 (vCPUs / 2)` (Go truncated division) and
`pipelineCount = max 1 (workerCount - 1)`, and the result does not depend
on the configured manual pipeline count: a configured count greater than
1 only produces a warning log and is ignored. -/
theorem auto_mode_worker_and_pipeline_counts
    (vCPUs manualPipelineCount : Int) :
    getDogStatsDWorkerAndPipelineCount vCPUs ⟨true, manualPipelineCount⟩ =
      (max 2 (Int.tdiv vCPUs 2), max 1 (max 2 (Int.tdiv vCPUs 2) - 1)) ∧
    getDogStatsDWorkerAndPipelineCount vCPUs ⟨true, manualPipelineCount⟩ =
      getDogStatsDWorkerAndPipelineCount vCPUs ⟨true, 1⟩ := by
  constructor
  · simp only [getDogStatsDWorkerAndPipelineCount]
    split_ifs <;> simp_all [Prod.ext_iff] <;> omega
  · rfl

/-- Claim C3: for every vCPU count and every configuration (either mode,
any manual pipeline count) the topology sizer returns
`workerCount ≥ 2` and `pipelineCount ≥ 1`; in particular neither field is
ever zero. Determinism holds by construction: the embedding is a pure
function of `(vCPUs, cfg)`, exactly as the Go function is a pure function
of its vCPU argument and the two configuration reads. -/
theorem topology_counts_always_positive (vCPUs : Int) (cfg : DatadogConfig) :
    2 ≤ (getDogStatsDWorkerAndPipelineCount vCPUs cfg).1 ∧
    1 ≤ (getDogStatsDWorkerAndPipelineCount vCPUs cfg).2 ∧
    (getDogStatsDWorkerAndPipelineCount vCPUs cfg).1 ≠ 0 ∧
    (getDogStatsDWorkerAndPipelineCount vCPUs cfg).2 ≠ 0 := by
  rcases cfg with ⟨auto, m⟩
  cases auto <;>
    simp only [getDogStatsDWorkerAndPipelineCount] <;>
    split_ifs <;> simp_all <;> omega

end Aggregator

/-- Claim C6: for every configuration and group id, `PodCheck.Run`
returns a nil message list together with the explicit
"Not implemented" error. The embedding is a total function, so no input
can make it panic or terminate the process. -/
theorem podCheck_run_not_implemented (c : Checks.PodCheck)
    (cfg : Checks.AgentConfig) (groupID : Int) :
    Checks.PodCheck.Run c cfg groupID = (none, some "Not implemented") := rfl

/-- Claim C7: `createIterableMetrics` returns a non-nil series sink
exactly when `AreSeriesEnabled()` holds and a non-nil sketches sink
exactly when `AreSketchesEnabled()` holds; a disabled capability yields a
nil sink. -/
theorem createIterableMetrics_gated_by_serializer
    (f : Aggregator.FlushAndSerializeInParallel)
    (s : Aggregator.MetricSerializer) (logPayloads isServerless : Bool) :
    ((Aggregator.createIterableMetrics f s logPayloads isServerless).1.isSome
        = s.areSeriesEnabled) ∧
    ((Aggregator.createIterableMetrics f s logPayloads isServerless).2.isSome
        = s.areSketchesEnabled) := by
  rcases s with ⟨se, sk⟩
  cases se <;> cases sk <;> simp [Aggregator.createIterableMetrics]

namespace WindowsProvider

/-- Claim C9: `GetAgentCID` never returns a non-nil error: for every
provider state and docker environment the error component is `none`, and
the returned string is the agent container id when it is known after the
possible forced prefetch, and the empty string otherwise. -/
theorem getAgentCID_never_errors (env : DockerEnv) (mp : Provider) :
    (GetAgentCID env mp).2.2 = none ∧
    (GetAgentCID env mp).2.1 = ((GetAgentCID env mp).1.agentCID).getD "" := by
  unfold GetAgentCID
  split
  · cases h : (Prefetch env mp).1.agentCID <;> simp [h]
  · cases h : mp.agentCID <;> simp [h]

/-- Claim C10: for every container id `GetPIDs` returns a nil slice with
a nil error, while `ContainerIDForPID` returns a non-nil
"not supported on windows" error for every pid. -/
theorem getPIDs_and_containerIDForPID_stubs (mp : Provider)
    (containerID : String) (pid : Int) :
    GetPIDs mp containerID = (none, none) ∧
    ContainerIDForPID mp pid = ("", some "not supported on windows") :=
  ⟨rfl, rfl⟩

/-- Claim C4: for a container id absent from the prefetched map, every
per-container accessor returns its zero result together with the typed
"container not found" error and `ContainerExists` returns `false`; for a
present id, `ContainerExists` returns `true` and the accessors return
the stored bundle data with a nil error. -/
theorem accessors_not_found_vs_hit (mp : Provider) (id : String) :
    (mp.containers.lookup id = none →
      (ContainerExists mp id = false ∧
       GetContainerStartTime mp id = (0, some "container not found") ∧
       GetContainerMetrics mp id = (none, some "container not found") ∧
       GetContainerLimits mp id = (none, some "container not found") ∧
       ∀ networks, GetNetworkMetrics mp id networks =
         (none, some "container not found"))) ∧
    (∀ b, mp.containers.lookup id = some b →
      (ContainerExists mp id = true ∧
       GetContainerStartTime mp id = (b.startTime, none) ∧
       GetContainerMetrics mp id = (b.metrics, none) ∧
       GetContainerLimits mp id = (b.limits, none) ∧
       ∀ networks, GetNetworkMetrics mp id networks =
         (some (makeNetStats networks b.networkMetrics), none))) := by
  constructor
  · intro h
    simp [ContainerExists, GetContainerStartTime, GetContainerMetrics,
      GetContainerLimits, GetNetworkMetrics, h]
  · intro b h
    simp [ContainerExists, GetContainerStartTime, GetContainerMetrics,
      GetContainerLimits, GetNetworkMetrics, h]

/-- Witness for C4, at a provider holding only container `abc`: the miss
branch for `zzz` and the hit branch for `abc`. -/
theorem accessors_not_found_vs_hit_witness :
    ContainerExists sampleProvider "zzz" = false ∧
    GetContainerMetrics sampleProvider "zzz" =
      (none, some "container not found") ∧
    ContainerExists sampleProvider "abc" = true ∧
    GetContainerStartTime sampleProvider "abc" = (42, none) := by
  have h1 := (accessors_not_found_vs_hit sampleProvider "zzz").1 (by rfl)
  have h2 := (accessors_not_found_vs_hit sampleProvider "abc").2 sampleBundle
    (by rfl)
  exact ⟨h1.1, h1.2.2.1, h2.1, h2.2.1⟩

/-- Helper: looking up any member of `l` in the association list pairing
each element with `f` of it succeeds. -/
theorem lookup_map_pair_isSome (f : String → ContainerBundle) :
    ∀ (l : List String) (a : String), a ∈ l →
      ((l.map (fun x => (x, f x))).lookup a).isSome = true := by
  intro l
  induction l with
  | nil => intro a h; cases h
  | cons x xs ih =>
    intro a h
    by_cases hax : a = x
    · subst hax
      simp [List.lookup]
    · rcases List.mem_cons.mp h with h1 | h2
      · exact absurd h1 hax
      · have hbeq : (a == x) = false := by
          simp [hax]
        simp only [List.map, List.lookup, hbeq]
        exact ih a h2

/-- Claim C5: when obtaining the docker client and listing the containers
both succeed, `Prefetch` returns a nil error for every inspect/stats
behaviour (per-item failures are logged and skipped), publishes exactly
one entry per listed container — including the ones whose inspect or
stats calls fail — and `Prefetch` returns an error only when the docker
client or the container listing fails, in which case the provider is
unchanged. -/
theorem prefetch_per_item_tolerance (env : DockerEnv) (mp : Provider) :
    (∀ cs, env.getDockerUtilError = none →
      env.rawContainerList = Except.ok cs →
      ((Prefetch env mp).2 = none ∧
       (Prefetch env mp).1.containers =
         cs.map (fun cid => (cid, (prefetchItem env cid).1)) ∧
       ∀ cid ∈ cs,
         ((Prefetch env mp).1.containers.lookup cid).isSome = true)) ∧
    (∀ e, env.getDockerUtilError = some e → Prefetch env mp = (mp, some e)) ∧
    (∀ e, env.getDockerUtilError = none →
      env.rawContainerList = Except.error e →
      Prefetch env mp = (mp, some e)) := by
  refine ⟨?_, ?_, ?_⟩
  · intro cs h1 h2
    refine ⟨by simp [Prefetch, h1, h2], by simp [Prefetch, h1, h2], ?_⟩
    intro cid hmem
    have hc : (Prefetch env mp).1.containers =
        cs.map (fun cid => (cid, (prefetchItem env cid).1)) := by
      simp [Prefetch, h1, h2]
    rw [hc]
    exact lookup_map_pair_isSome (fun cid => (prefetchItem env cid).1) cs cid
      hmem
  · intro e h1
    simp [Prefetch, h1]
  · intro e h1 h2
    simp [Prefetch, h1, h2]

/-- Witness for C5, at an environment listing containers `good` and
`bad` where both inspect and stats fail for `bad`: the prefetch still
returns a nil error and records entries for both. -/
theorem prefetch_per_item_tolerance_witness :
    (Prefetch sampleEnv {}).2 = none ∧
    ((Prefetch sampleEnv {}).1.containers.lookup "bad").isSome = true ∧
    ((Prefetch sampleEnv {}).1.containers.lookup "good").isSome = true := by
  have h := (prefetch_per_item_tolerance sampleEnv {}).1 ["good", "bad"]
    (by rfl) (by rfl)
  exact ⟨h.1, h.2.2 "bad" (by simp), h.2.2 "good" (by simp)⟩

/-- Claim C8: in `fillContainerMetrics` the user CPU time is
`total - kernel` on `uint64`, so the `user < 0` clamp branch is
unreachable: the stored user value always equals the wrapped difference
`(total / 1e5 + 2 ^ 64 - kernel / 1e5) % 2 ^ 64`, and whenever the scaled
kernel time exceeds the scaled total time it wraps around modulo
`2 ^ 64` to a nonzero value instead of being clamped to `0`. The
hypotheses state that the raw counters lie in `uint64` range. -/
theorem fillContainerMetrics_user_wraps (stats : StatsJSON)
    (b : ContainerBundle)
    (hk : stats.cpuUsage.usageInKernelmode < 2 ^ 64)
    (ht : stats.cpuUsage.totalUsage < 2 ^ 64) :
    ((fillContainerMetrics stats b).metrics.map fun m => m.cpu.user) =
      some ((stats.cpuUsage.totalUsage / 100000 + 2 ^ 64 -
             stats.cpuUsage.usageInKernelmode / 100000) % 2 ^ 64) ∧
    (stats.cpuUsage.totalUsage / 100000 <
        stats.cpuUsage.usageInKernelmode / 100000 →
      ((fillContainerMetrics stats b).metrics.map fun m => m.cpu.user) =
        some (2 ^ 64 - (stats.cpuUsage.usageInKernelmode / 100000 -
                        stats.cpuUsage.totalUsage / 100000)) ∧
      ∀ m, (fillContainerMetrics stats b).metrics = some m →
        m.cpu.user ≠ 0) := by
  constructor
  · simp [fillContainerMetrics]
  · intro h
    have hk2 : stats.cpuUsage.usageInKernelmode / 100000 < 2 ^ 64 := by
      have := Nat.div_le_self stats.cpuUsage.usageInKernelmode 100000
      omega
    constructor
    · simp [fillContainerMetrics]
      omega
    · intro m hm
      simp [fillContainerMetrics] at hm
      rw [← hm]
      simp
      omega

/-- Witness for C8, at a stats payload with `TotalUsage = 0` and
`UsageInKernelmode = 1e5`: the stored user CPU value is `2 ^ 64 - 1`,
not `0`. -/
theorem fillContainerMetrics_user_wraps_witness :
    ((fillContainerMetrics wrapStats {}).metrics.map fun m => m.cpu.user) =
      some (2 ^ 64 - 1) := by
  have h := fillContainerMetrics_user_wraps wrapStats {}
    (by norm_num [wrapStats]) (by norm_num [wrapStats])
  have h2 := (h.2 (by norm_num [wrapStats])).1
  simpa [wrapStats] using h2

end WindowsProvider
